import Mathlib

/-!
Verification of the Colobot excerpt (`src/app/app.h`, `src/math/point.h`).

The excerpt contains only the header of `CApplication` (declarations, inline
struct code and doc comments) and the 2D point utilities.  The bodies of the
`CApplication` member functions (`app.cpp`) are not part of the excerpt, so
the time-keeping, video-config, joystick and event-dispatch operations are
modelled from the specification, as marked on each definition.  The inline
code that is present in the headers (`InputBinding::Reset`, the
`InputBinding` default constructor, `Math::Swap`) is embedded directly.
-/

namespace Colobot

/-- Modelled from the spec: the time-keeping portion of `CApplication`'s state
(fields `m_curTimeStamp`, `m_lastTimeStamp`, `m_realAbsTime`, `m_realRelTime`,
`m_exactAbsTime`, `m_exactRelTime`, `m_simulationSpeed`,
`m_simulationSuspended` of `app.h`); the implementation file `app.cpp` is not
part of the excerpt.  Real (unscaled) times are integer nanosecond counters.
The spec defines `scaled delta = real delta × speed` exactly, so scaled times
and the speed factor are exact rationals.  The base-timestamp fields of the
header are subsumed here by accumulating deltas directly, as the spec's
operational description does. -/
structure TimeState where
  curTimeStamp : Int
  lastTimeStamp : Int
  realAbsTime : Int
  realRelTime : Int
  exactAbsTime : ℚ
  exactRelTime : ℚ
  simulationSpeed : ℚ
  simulationSuspended : Bool
  deriving Repr, DecidableEq

/-- `CApplication::GetExactAbsTime`: exact absolute (speed-scaled) time [ns]. -/
def GetExactAbsTime (st : TimeState) : ℚ := st.exactAbsTime

/-- `CApplication::GetRealAbsTime`: absolute time disregarding speed [ns]. -/
def GetRealAbsTime (st : TimeState) : Int := st.realAbsTime

/-- `CApplication::GetExactRelTime`: exact relative (speed-scaled) time since
last update [ns]. -/
def GetExactRelTime (st : TimeState) : ℚ := st.exactRelTime

/-- `CApplication::GetRealRelTime`: relative time since last update
disregarding speed [ns]. -/
def GetRealRelTime (st : TimeState) : Int := st.realRelTime

/-- `CApplication::GetAbsTime`: absolute scaled time in seconds, derived from
the exact nanosecond counter. -/
def GetAbsTime (st : TimeState) : ℚ := st.exactAbsTime / 1000000000

/-- `CApplication::GetRelTime`: relative scaled time in seconds, derived from
the exact nanosecond counter. -/
def GetRelTime (st : TimeState) : ℚ := st.exactRelTime / 1000000000

/-- `CApplication::GetSimulationSpeed`. -/
def GetSimulationSpeed (st : TimeState) : ℚ := st.simulationSpeed

/-- `CApplication::GetSimulationSuspended`. -/
def GetSimulationSuspended (st : TimeState) : Bool := st.simulationSuspended

/-- Modelled from the spec: `CApplication::StepSimulation` (body in `app.cpp`,
not in the excerpt).  Per spec §4.1: samples the current high-resolution
timestamp `now`; computes the delta since the last sampled timestamp; if
suspended, the delta contributes to real time tracking only — simulation-scaled
time does not move; otherwise `scaled delta = real delta × speed` is added to
the absolute scaled time. -/
def StepSimulation (st : TimeState) (now : Int) : TimeState :=
  let delta : Int := now - st.curTimeStamp
  let st1 : TimeState :=
    { st with
      lastTimeStamp := st.curTimeStamp
      curTimeStamp := now
      realRelTime := delta
      realAbsTime := st.realAbsTime + delta }
  if st1.simulationSuspended then
    { st1 with exactRelTime := 0 }
  else
    let scaledDelta : ℚ := st1.simulationSpeed * (delta : ℚ)
    { st1 with
      exactRelTime := scaledDelta
      exactAbsTime := st1.exactAbsTime + scaledDelta }

/-- `CApplication::SuspendSimulation` (modelled from the spec: toggles
suspension on; body in `app.cpp`, not in the excerpt). -/
def SuspendSimulation (st : TimeState) : TimeState :=
  { st with simulationSuspended := true }

/-- Modelled from the spec: `CApplication::ResumeSimulation` (body in
`app.cpp`, not in the excerpt).  Per spec §4.2: resuming must not introduce a
time jump — the delta accrued while suspended is discarded from the scaled
accumulator, not applied as a burst.  This is achieved by rebasing the sampled
timestamps to the wall-clock time `now` at which resume occurs, so the next
step's delta counts only from resume. -/
def ResumeSimulation (st : TimeState) (now : Int) : TimeState :=
  { st with
    simulationSuspended := false
    curTimeStamp := now
    lastTimeStamp := now }

/-- Modelled from the spec: `CApplication::SetSimulationSpeed` (body in
`app.cpp`, not in the excerpt).  Per spec §4.1: changes the scaling factor
applied to future deltas; does not retroactively rescale already-accumulated
time. -/
def SetSimulationSpeed (st : TimeState) (speed : ℚ) : TimeState :=
  { st with simulationSpeed := speed }

end Colobot

namespace Colobot

/-- C1: While the simulation is suspended, every call to `StepSimulation`
leaves the exact absolute scaled time (`GetExactAbsTime`) unchanged, while the
real absolute time (`GetRealAbsTime`) advances by exactly the real wall-clock
time elapsed since the last step, hence strictly increases whenever real
wall-clock time has elapsed. -/
theorem stepSimulation_suspended_time (st : TimeState) (now : Int)
    (hs : st.simulationSuspended = true) :
    GetExactAbsTime (StepSimulation st now) = GetExactAbsTime st ∧
    GetRealAbsTime (StepSimulation st now) =
      GetRealAbsTime st + (now - st.curTimeStamp) ∧
    (st.curTimeStamp < now →
      GetRealAbsTime st < GetRealAbsTime (StepSimulation st now)) := by
  refine ⟨?_, ?_, ?_⟩ <;>
    simp [StepSimulation, GetExactAbsTime, GetRealAbsTime, hs]

/-- Witness for C1 at a concrete suspended state and timestamp. -/
theorem stepSimulation_suspended_time_witness :
    GetExactAbsTime
        (StepSimulation ⟨100, 50, 1000, 50, 200, 50, 2, true⟩ 150) =
      GetExactAbsTime ⟨100, 50, 1000, 50, 200, 50, 2, true⟩ ∧
    GetRealAbsTime (StepSimulation ⟨100, 50, 1000, 50, 200, 50, 2, true⟩ 150) =
      GetRealAbsTime ⟨100, 50, 1000, 50, 200, 50, 2, true⟩ + (150 - 100) ∧
    ((100 : Int) < 150 →
      GetRealAbsTime ⟨100, 50, 1000, 50, 200, 50, 2, true⟩ <
        GetRealAbsTime
          (StepSimulation ⟨100, 50, 1000, 50, 200, 50, 2, true⟩ 150)) :=
  stepSimulation_suspended_time ⟨100, 50, 1000, 50, 200, 50, 2, true⟩ 150 rfl

/-- C2: For every simulation speed `s ≥ 0` set via `SetSimulationSpeed`, a
`StepSimulation` call while not suspended sets the scaled relative time to the
real relative time of the step multiplied by `s` and advances the absolute
scaled time by that amount; in particular `s = 0` freezes scaled time exactly
as suspension does (absolute scaled time unchanged, scaled relative time 0). -/
theorem stepSimulation_speed_scaling (st : TimeState) (s : ℚ) (now : Int)
    (hnonneg : 0 ≤ s) (hsusp : st.simulationSuspended = false) :
    GetExactRelTime (StepSimulation (SetSimulationSpeed st s) now) =
      s * ((GetRealRelTime (StepSimulation (SetSimulationSpeed st s) now) : Int) : ℚ) ∧
    GetExactAbsTime (StepSimulation (SetSimulationSpeed st s) now) =
      GetExactAbsTime st + s * ((now - st.curTimeStamp : Int) : ℚ) ∧
    (s = 0 →
      GetExactAbsTime (StepSimulation (SetSimulationSpeed st s) now) =
        GetExactAbsTime st ∧
      GetExactRelTime (StepSimulation (SetSimulationSpeed st s) now) = 0) := by
  refine ⟨?_, ?_, ?_⟩ <;>
    simp [StepSimulation, SetSimulationSpeed, GetExactRelTime, GetExactAbsTime,
      GetRealRelTime, hsusp]
  rintro rfl
  simp

/-- Witness for C2 at a concrete running state, speed 2 and timestamp. -/
theorem stepSimulation_speed_scaling_witness :
    GetExactRelTime
        (StepSimulation
          (SetSimulationSpeed ⟨100, 50, 1000, 50, 200, 50, 3, false⟩ 2) 170) =
      2 * ((GetRealRelTime
        (StepSimulation
          (SetSimulationSpeed ⟨100, 50, 1000, 50, 200, 50, 3, false⟩ 2) 170) : Int) : ℚ) ∧
    GetExactAbsTime
        (StepSimulation
          (SetSimulationSpeed ⟨100, 50, 1000, 50, 200, 50, 3, false⟩ 2) 170) =
      GetExactAbsTime ⟨100, 50, 1000, 50, 200, 50, 3, false⟩ +
        2 * ((170 - 100 : Int) : ℚ) ∧
    ((2 : ℚ) = 0 →
      GetExactAbsTime
          (StepSimulation
            (SetSimulationSpeed ⟨100, 50, 1000, 50, 200, 50, 3, false⟩ 2) 170) =
        GetExactAbsTime ⟨100, 50, 1000, 50, 200, 50, 3, false⟩ ∧
      GetExactRelTime
          (StepSimulation
            (SetSimulationSpeed ⟨100, 50, 1000, 50, 200, 50, 3, false⟩ 2) 170) = 0) :=
  stepSimulation_speed_scaling ⟨100, 50, 1000, 50, 200, 50, 3, false⟩ 2 170
    (by norm_num) rfl

/-- C3: Resuming after a suspension never adds the real time accrued during
the suspended interval to the scaled accumulator: resume itself leaves the
absolute scaled time unchanged, and the first `StepSimulation` after resuming
at wall-clock `tResume` advances the absolute scaled time only by
`speed × (tStep − tResume)` — independent of the state's stale pre-suspension
timestamps, hence never by a burst equal to the suspended duration. -/
theorem resumeSimulation_no_time_jump (st : TimeState) (tResume tStep : Int)
    (_hs : st.simulationSuspended = true) :
    GetExactAbsTime (ResumeSimulation st tResume) = GetExactAbsTime st ∧
    GetExactAbsTime (StepSimulation (ResumeSimulation st tResume) tStep) =
      GetExactAbsTime st +
        st.simulationSpeed * ((tStep - tResume : Int) : ℚ) := by
  constructor <;>
    simp [ResumeSimulation, StepSimulation, GetExactAbsTime]

/-- Witness for C3 at a concrete suspended state: suspension lasted from
timestamp 100 to resume at 5000, yet the first step (at 5010) advances scaled
time by speed × 10 only. -/
theorem resumeSimulation_no_time_jump_witness :
    GetExactAbsTime
        (ResumeSimulation ⟨100, 50, 1000, 50, 200, 50, 2, true⟩ 5000) =
      GetExactAbsTime ⟨100, 50, 1000, 50, 200, 50, 2, true⟩ ∧
    GetExactAbsTime
        (StepSimulation
          (ResumeSimulation ⟨100, 50, 1000, 50, 200, 50, 2, true⟩ 5000) 5010) =
      GetExactAbsTime ⟨100, 50, 1000, 50, 200, 50, 2, true⟩ +
        (⟨100, 50, 1000, 50, 200, 50, 2, true⟩ : TimeState).simulationSpeed *
          ((5010 - 5000 : Int) : ℚ) :=
  resumeSimulation_no_time_jump ⟨100, 50, 1000, 50, 200, 50, 2, true⟩ 5000 5010 rfl

/-- C7: `SetSimulationSpeed` changes only the scaling factor applied to future
deltas: it sets the speed and leaves the accumulated absolute scaled time, the
real absolute and relative times, the scaled relative time, and the derived
second-valued times all unchanged (no retroactive rescaling). -/
theorem setSimulationSpeed_no_retroactive_rescale (st : TimeState) (s : ℚ) :
    GetSimulationSpeed (SetSimulationSpeed st s) = s ∧
    GetExactAbsTime (SetSimulationSpeed st s) = GetExactAbsTime st ∧
    GetRealAbsTime (SetSimulationSpeed st s) = GetRealAbsTime st ∧
    GetRealRelTime (SetSimulationSpeed st s) = GetRealRelTime st ∧
    GetExactRelTime (SetSimulationSpeed st s) = GetExactRelTime st ∧
    GetAbsTime (SetSimulationSpeed st s) = GetAbsTime st ∧
    GetRelTime (SetSimulationSpeed st s) = GetRelTime st := by
  refine ⟨rfl, rfl, rfl, rfl, rfl, rfl, rfl⟩

end Colobot

namespace Colobot

/-- Modelled from the spec: `Gfx::GLDeviceConfig` (declared in
`graphics/opengl/gldevice.h`, which is not part of the excerpt).  The spec
treats it as an opaque display-configuration value object, so a minimal value
object with a resolution and mode flags suffices. -/
structure GLDeviceConfig where
  width : Nat
  height : Nat
  bpp : Nat
  fullScreen : Bool
  deriving Repr, DecidableEq

/-- The video-configuration portion of `CApplication`'s state: the current
(`m_deviceConfig`) and previous (`m_lastDeviceConfig`) device configuration
from `app.h`. -/
structure VideoState where
  deviceConfig : GLDeviceConfig
  lastDeviceConfig : GLDeviceConfig
  deriving Repr, DecidableEq

/-- `CApplication::GetVideoConfig`: returns the current video mode. -/
def GetVideoConfig (st : VideoState) : GLDeviceConfig := st.deviceConfig

/-- Modelled from the spec: `CApplication::ChangeVideoConfig` (body in
`app.cpp`, not in the excerpt).  Per spec §4.4: attempts to recreate the
rendering surface/device with `newConfig` (success of surface creation is
abstracted as the predicate `createVideoSurface`); on success the previous
configuration is retained in `m_lastDeviceConfig`; on failure the previously
active configuration and device state are restored exactly and failure is
reported. -/
def ChangeVideoConfig (createVideoSurface : GLDeviceConfig → Bool)
    (st : VideoState) (newConfig : GLDeviceConfig) : Bool × VideoState :=
  let saved := st.deviceConfig
  if createVideoSurface newConfig then
    (true, { deviceConfig := newConfig, lastDeviceConfig := saved })
  else
    (false, { deviceConfig := saved, lastDeviceConfig := saved })

/-- `JoystickDevice` from `app.h`: device index (−1 = invalid device), name,
axis count and button count. -/
structure JoystickDevice where
  index : Int
  name : String
  axisCount : Int
  buttonCount : Int
  deriving Repr, DecidableEq

/-- The `JoystickDevice` default constructor from `app.h`:
`index(-1), axisCount(0), buttonCount(0)` with an empty name. -/
def JoystickDevice.init : JoystickDevice :=
  { index := -1, name := "", axisCount := 0, buttonCount := 0 }

/-- The joystick portion of `CApplication`'s state (`m_joystick` of `app.h`). -/
structure JoyState where
  joystick : JoystickDevice
  deriving Repr, DecidableEq

/-- `CApplication::GetJoystick`: info about the current joystick. -/
def GetJoystick (st : JoyState) : JoystickDevice := st.joystick

/-- Modelled from the spec: `CApplication::ChangeJoystick` (body in `app.cpp`,
not in the excerpt; `OpenJoystick`/`CloseJoystick` manage the device handle
lifecycle).  Per spec §4.3: closes the current device (if any) before opening
the requested one — fails and leaves prior device state on open error (no
partial device swap).  Whether a device can be opened is abstracted as the
predicate `canOpen`. -/
def ChangeJoystick (canOpen : JoystickDevice → Bool)
    (st : JoyState) (newJoystick : JoystickDevice) : Bool × JoyState :=
  if canOpen newJoystick then
    (true, { st with joystick := newJoystick })
  else
    (false, st)

end Colobot

namespace Colobot

/-- C4: If `ChangeVideoConfig` fails to apply the new configuration, it
returns failure and `GetVideoConfig` afterwards returns exactly the
configuration that was active before the call: no half-configured device
state is observable on error. -/
theorem changeVideoConfig_rollback_on_failure
    (createVideoSurface : GLDeviceConfig → Bool) (st : VideoState)
    (newConfig : GLDeviceConfig) (hfail : createVideoSurface newConfig = false) :
    (ChangeVideoConfig createVideoSurface st newConfig).1 = false ∧
    GetVideoConfig (ChangeVideoConfig createVideoSurface st newConfig).2 =
      GetVideoConfig st := by
  constructor <;> simp [ChangeVideoConfig, GetVideoConfig, hfail]

/-- Witness for C4: a surface creation that always fails at a concrete
configuration pair. -/
theorem changeVideoConfig_rollback_on_failure_witness :
    (ChangeVideoConfig (fun _ => false)
        ⟨⟨800, 600, 32, false⟩, ⟨640, 480, 16, false⟩⟩ ⟨1024, 768, 32, true⟩).1
      = false ∧
    GetVideoConfig (ChangeVideoConfig (fun _ => false)
        ⟨⟨800, 600, 32, false⟩, ⟨640, 480, 16, false⟩⟩ ⟨1024, 768, 32, true⟩).2 =
      GetVideoConfig ⟨⟨800, 600, 32, false⟩, ⟨640, 480, 16, false⟩⟩ :=
  changeVideoConfig_rollback_on_failure (fun _ => false)
    ⟨⟨800, 600, 32, false⟩, ⟨640, 480, 16, false⟩⟩ ⟨1024, 768, 32, true⟩ rfl

/-- C5: If `ChangeJoystick` is called with a device that cannot be opened, it
returns failure and the previously current joystick device state is left
untouched, so `GetJoystick` afterwards returns the same device as before the
call — no partial device swap is observable. -/
theorem changeJoystick_failure_keeps_device
    (canOpen : JoystickDevice → Bool) (st : JoyState)
    (newJoystick : JoystickDevice) (hfail : canOpen newJoystick = false) :
    (ChangeJoystick canOpen st newJoystick).1 = false ∧
    GetJoystick (ChangeJoystick canOpen st newJoystick).2 = GetJoystick st := by
  constructor <;> simp [ChangeJoystick, GetJoystick, hfail]

/-- Witness for C5: opening fails for a device with an invalid index, and the
current device is unchanged. -/
theorem changeJoystick_failure_keeps_device_witness :
    (ChangeJoystick (fun d => decide (0 ≤ d.index))
        ⟨⟨0, "pad", 4, 12⟩⟩ ⟨-1, "bad", 0, 0⟩).1 = false ∧
    GetJoystick (ChangeJoystick (fun d => decide (0 ≤ d.index))
        ⟨⟨0, "pad", 4, 12⟩⟩ ⟨-1, "bad", 0, 0⟩).2 =
      GetJoystick ⟨⟨0, "pad", 4, 12⟩⟩ :=
  changeJoystick_failure_keeps_device (fun d => decide (0 ≤ d.index))
    ⟨⟨0, "pad", 4, 12⟩⟩ ⟨-1, "bad", 0, 0⟩ (by decide)

end Colobot

namespace Colobot

/-- The three consumers of the event-dispatch chain, in the order documented
in `app.h`: `CApplication`, `Gfx::CEngine`, `CRobotMain`. -/
inductive HandlerId where
  | application
  | engine
  | robotMain
  deriving Repr, DecidableEq

/-- Modelled from the spec: the generic dispatch loop (the `Run` loop body in
`app.cpp` is not in the excerpt).  Per the `app.h` Events section and spec
§4.2: the event is passed to each handler of the chain in order; each handler
returns a boolean "continue propagation" signal, and returning `false` stops
the chain.  The result is the list of handlers that observe the event, in the
order they observe it. -/
def dispatchEvent {Event : Type} (ev : Event) :
    List (HandlerId × (Event → Bool)) → List HandlerId
  | [] => []
  | (hid, h) :: rest =>
      hid :: (if h ev then dispatchEvent ev rest else [])

/-- Modelled from the spec: the fixed dispatch order of `app.h` — the
`ProcessEvent` handler of `CApplication` first, then `Gfx::CEngine`, then
`CRobotMain`. -/
def processEventChain {Event : Type}
    (appHandler engineHandler robotMainHandler : Event → Bool) (ev : Event) :
    List HandlerId :=
  dispatchEvent ev
    [(HandlerId.application, appHandler),
     (HandlerId.engine, engineHandler),
     (HandlerId.robotMain, robotMainHandler)]

/-- The numeric key codes of the keys (or kmods) whose pressed/released state
`CApplication` tracks, from the `TrackedKey` enum of `app.h`. -/
inductive TrackedKey where
  | TRKEY_SHIFT
  | TRKEY_CONTROL
  | TRKEY_NUM_UP
  | TRKEY_NUM_DOWN
  | TRKEY_NUM_LEFT
  | TRKEY_NUM_RIGHT
  | TRKEY_NUM_PLUS
  | TRKEY_NUM_MINUS
  | TRKEY_PAGE_UP
  | TRKEY_PAGE_DOWN
  deriving Repr, DecidableEq

/-- `Math::Vector` (declared in the math module, not in the excerpt): a
3-component vector used for the keyboard and joystick motion vectors; its
components are only stored and compared here, modelled as exact rationals. -/
structure Vector3 where
  x : ℚ
  y : ℚ
  z : ℚ
  deriving Repr, DecidableEq

/-- The zero motion vector. -/
def Vector3.zero : Vector3 := ⟨0, 0, 0⟩

/-- The input-state portion of `CApplication`'s state from `app.h`:
`m_kmodState` (mask of SDLMod), `m_trackedKeysState` (one flag per
`TrackedKey`), `m_mouseButtonsState` (mask of button indexes), and the
keyboard- and joystick-derived motion vectors `m_keyMotion`, `m_joyMotion`. -/
structure InputState where
  kmodState : Nat
  trackedKeysState : TrackedKey → Bool
  mouseButtonsState : Nat
  keyMotion : Vector3
  joyMotion : Vector3

/-- `CApplication::GetKmods`: the current key modifier mask. -/
def GetKmods (st : InputState) : Nat := st.kmodState

/-- `CApplication::GetTrackedKeyState`: whether the tracked key is pressed. -/
def GetTrackedKeyState (st : InputState) (key : TrackedKey) : Bool :=
  st.trackedKeysState key

/-- `CApplication::GetMouseButtonState`: whether the mouse button with the
given index is pressed (bit `index` of the mask of button indexes). -/
def GetMouseButtonState (st : InputState) (index : Nat) : Bool :=
  st.mouseButtonsState.testBit index

/-- Modelled from the spec: `CApplication::ResetKeyStates` (body in `app.cpp`,
not in the excerpt; `app.h` documents it as "Resets tracked key states,
modifiers and motion vectors").  Per the spec: clears all tracked-key,
modifier, and mouse-button state and zeroes both motion vectors. -/
def ResetKeyStates (_st : InputState) : InputState :=
  { kmodState := 0
    trackedKeysState := fun _ => false
    mouseButtonsState := 0
    keyMotion := Vector3.zero
    joyMotion := Vector3.zero }

end Colobot

namespace Colobot

/-- C6: Event dispatch follows the fixed order application handler, engine
handler, simulation-root handler, and a stop-propagation signal (`false`)
from any handler prevents every later handler from observing the event: the
observers are exactly `[application]`, `[application, engine]` or
`[application, engine, robotMain]` according to where the chain stops, and in
particular the simulation-root handler never observes an event consumed
earlier in the chain. -/
theorem processEventChain_order_and_stop {Event : Type}
    (appHandler engineHandler robotMainHandler : Event → Bool) (ev : Event) :
    (appHandler ev = false →
      processEventChain appHandler engineHandler robotMainHandler ev =
        [HandlerId.application]) ∧
    (appHandler ev = true → engineHandler ev = false →
      processEventChain appHandler engineHandler robotMainHandler ev =
        [HandlerId.application, HandlerId.engine]) ∧
    (appHandler ev = true → engineHandler ev = true →
      processEventChain appHandler engineHandler robotMainHandler ev =
        [HandlerId.application, HandlerId.engine, HandlerId.robotMain]) ∧
    (appHandler ev = false ∨ engineHandler ev = false →
      HandlerId.robotMain ∉
        processEventChain appHandler engineHandler robotMainHandler ev) := by
  refine ⟨?_, ?_, ?_, ?_⟩
  · intro ha; simp [processEventChain, dispatchEvent, ha]
  · intro ha he; simp [processEventChain, dispatchEvent, ha, he]
  · intro ha he; simp [processEventChain, dispatchEvent, ha, he]
  · rintro (ha | he)
    · simp [processEventChain, dispatchEvent, ha]
    · cases hae : appHandler ev <;>
        simp [processEventChain, dispatchEvent, hae, he]

/-- Witness for C6: a synthetic event (an event type of plain numbers, quit
event 13) consumed by the application-level handler is observed by the
application handler only; the simulation-root handler never sees it. -/
theorem processEventChain_order_and_stop_witness :
    processEventChain (fun e : Nat => decide (e ≠ 13)) (fun _ => true)
        (fun _ => true) 13 = [HandlerId.application] ∧
    HandlerId.robotMain ∉
      processEventChain (fun e : Nat => decide (e ≠ 13)) (fun _ => true)
        (fun _ => true) 13 :=
  ⟨(processEventChain_order_and_stop (fun e : Nat => decide (e ≠ 13))
      (fun _ => true) (fun _ => true) 13).1 (by decide),
   (processEventChain_order_and_stop (fun e : Nat => decide (e ≠ 13))
      (fun _ => true) (fun _ => true) 13).2.2.2 (Or.inl (by decide))⟩

/-- C8: After a call to `ResetKeyStates`, every tracked key state is cleared,
the key modifier mask and the mouse-button mask are zero (so no modifier is
set and no mouse button reads as pressed), and both the keyboard-derived and
the joystick-derived motion vectors are the zero vector. -/
theorem resetKeyStates_clears_all (st : InputState) :
    (∀ key : TrackedKey, GetTrackedKeyState (ResetKeyStates st) key = false) ∧
    GetKmods (ResetKeyStates st) = 0 ∧
    (∀ index : Nat, GetMouseButtonState (ResetKeyStates st) index = false) ∧
    (ResetKeyStates st).keyMotion = Vector3.zero ∧
    (ResetKeyStates st).joyMotion = Vector3.zero := by
  refine ⟨fun key => rfl, rfl, fun index => ?_, rfl, rfl⟩
  simp [GetMouseButtonState, ResetKeyStates]

end Colobot

namespace Colobot

/-- The 32-bit unsigned-integer representation of `-1`, i.e.
`static_cast<unsigned int>(-1)` from `InputBinding::Reset` in `app.h`:
the reserved invalid ("unset") sentinel for input bindings. -/
def uintNeg1 : Nat := 2 ^ 32 - 1

/-- `InputBinding` from `app.h`: a settable binding for user input — a key
code, a key modifier mask and a joystick button, each an `unsigned int`
(modelled as a natural number below `2^32`). -/
structure InputBinding where
  key : Nat
  kmod : Nat
  joy : Nat
  deriving Repr, DecidableEq

/-- `InputBinding::Reset` from `app.h`:
`key = kmod = joy = static_cast<unsigned int>(-1)`. -/
def InputBinding.Reset (_b : InputBinding) : InputBinding :=
  { key := uintNeg1, kmod := uintNeg1, joy := uintNeg1 }

/-- The `InputBinding` default constructor from `app.h`: it calls `Reset()`
on the (otherwise arbitrary) new object. -/
def InputBinding.init : InputBinding := InputBinding.Reset ⟨0, 0, 0⟩

/-- The `InputSlot` enum from `app.h`: the available slots for input
bindings. -/
inductive InputSlot where
  | INPUT_SLOT_LEFT
  | INPUT_SLOT_RIGHT
  | INPUT_SLOT_UP
  | INPUT_SLOT_DOWN
  | INPUT_SLOT_GUP
  | INPUT_SLOT_GDOWN
  | INPUT_SLOT_CAMERA
  | INPUT_SLOT_DESEL
  | INPUT_SLOT_ACTION
  | INPUT_SLOT_NEAR
  | INPUT_SLOT_AWAY
  | INPUT_SLOT_NEXT
  | INPUT_SLOT_HUMAN
  | INPUT_SLOT_QUIT
  | INPUT_SLOT_HELP
  | INPUT_SLOT_PROG
  | INPUT_SLOT_VISIT
  | INPUT_SLOT_SPEED10
  | INPUT_SLOT_SPEED15
  | INPUT_SLOT_SPEED20
  | INPUT_SLOT_SPEED30
  | INPUT_SLOT_AIMUP
  | INPUT_SLOT_AIMDOWN
  | INPUT_SLOT_CBOT
  deriving Repr, DecidableEq

/-- The initial state of `CApplication::m_inputBindings` from `app.h`: a
member array `InputBinding m_inputBindings[INPUT_SLOT_MAX]` whose elements
are default-constructed, so every slot holds the default binding. -/
def initialInputBindings : InputSlot → InputBinding :=
  fun _ => InputBinding.init

end Colobot

namespace Colobot

/-- C9: A default-constructed `InputBinding` and one on which `Reset` has
been called have all three fields — `key`, `kmod` and `joy` — equal to the
same reserved invalid sentinel, the unsigned representation of `-1`
(`2^32 − 1 = 4294967295`), and every slot of the application's binding table
starts in this unset state. -/
theorem inputBinding_reset_sentinel :
    uintNeg1 = 4294967295 ∧
    InputBinding.init.key = uintNeg1 ∧
    InputBinding.init.kmod = uintNeg1 ∧
    InputBinding.init.joy = uintNeg1 ∧
    (∀ b : InputBinding,
      (b.Reset).key = uintNeg1 ∧ (b.Reset).kmod = uintNeg1 ∧
        (b.Reset).joy = uintNeg1) ∧
    (∀ slot : InputSlot, initialInputBindings slot = InputBinding.init) :=
  ⟨by decide, rfl, rfl, rfl, fun b => ⟨rfl, rfl, rfl⟩, fun slot => rfl⟩

end Colobot

namespace Math

/-- `Math::Point` from `math/point.h` (an alias of `glm::vec2`): a
2-component vector of single-precision floats.  Its components are only
copied, never computed with, by the operation below. -/
structure Point where
  x : Float
  y : Float

/-- `Math::Swap` from `math/point.h`: permutes two points through a
temporary (`c = a; a = b; b = c`).  The C++ function mutates its
reference arguments; here it returns the pair of resulting values
`(final a, final b)`. -/
def Swap (a b : Point) : Point × Point :=
  let c := a
  let a1 := b
  let b1 := c
  (a1, b1)

end Math

namespace Math

/-- C10: For every pair of points `a` and `b`, `Math::Swap` exchanges their
values — afterwards the first point holds `b`'s former coordinates and the
second holds `a`'s former coordinates — and applying `Swap` twice in
succession restores both points to their original values (an involution). -/
theorem Swap_exchanges_and_involutive (a b : Point) :
    (Swap a b).1 = b ∧ (Swap a b).2 = a ∧
    Swap (Swap a b).1 (Swap a b).2 = (a, b) :=
  ⟨rfl, rfl, rfl⟩

end Math
